import Mathlib

/-!
Shallow embedding of `src/historical_timelines/renderer.py` (class
`HistoricalTimelineRenderer`).  Python dictionaries holding the parallel
event columns are modelled as the structure `EventDict`; period groups as
`PeriodGroup`; the bokeh figure object as the record `Figure` whose fields
collect the configuration calls issued against it.  Methods that mutate the
plot (or could mutate the renderer) are modelled by explicit state passing:
each method returns its result paired with the renderer object, so that
immutability of the renderer's configuration is a provable statement rather
than a modelling assumption.  Side effects of `bokeh.show`/`bokeh.save` are
reified as an `OutputEffect` value.
-/

namespace HistoricalTimelines

/-- The event dictionary produced by the timeline collaborator.  The renderer
reads the columns `dates`, `label`, `title` and `description`; `extra` models
any further keys a Python dict may carry, which the renderer never reads. -/
structure EventDict where
  dates : List Int
  label : List String
  title : List String
  description : List String
  extra : List (String × List String)
deriving DecidableEq

/-- One period group: a dict of parallel columns `start`, `end`, `mid`,
`title` (plus unread extra keys), one group per synthetic category row. -/
structure PeriodGroup where
  start : List Int
  «end» : List Int
  mid : List Int
  title : List String
  extra : List (String × List String)
deriving DecidableEq

/-- `bokeh.models.ColumnDataSource`: a wrapper around the dict it is built
from (`get_source_from_event_dict` is a pass-through). -/
structure ColumnDataSource (α : Type) where
  data : α
deriving DecidableEq

/-- The toolbar tools installed by the constructor. -/
inductive Tool where
  | boxZoom : Tool
  | reset : Tool
  | pan (dimensions : String) : Tool
deriving DecidableEq

/-- A bokeh glyph coordinate: either the name of a source column, or a fixed
value (bokeh's `value(...)` wrapper). -/
inductive ValueOrField where
  | field (name : String) : ValueOrField
  | value (v : String) : ValueOrField
deriving DecidableEq

/-- The data source attached to a `LabelSet`: either the event source or a
period-group source. -/
inductive SourceData where
  | events (src : ColumnDataSource EventDict) : SourceData
  | periods (src : ColumnDataSource PeriodGroup) : SourceData
deriving DecidableEq

/-- A `bokeh.models.LabelSet` added to the plot via `add_layout`. -/
structure LabelSetObj where
  x : ValueOrField
  y : ValueOrField
  text : String
  y_offset : Int
  text_font_size : String
  text_color : String
  text_align : String
  source : SourceData
deriving DecidableEq

/-- One `plot.scatter(...)` call (arguments in source order). -/
structure ScatterCall where
  x : String
  y : String
  size : Nat
  source : ColumnDataSource EventDict
  color : String
deriving DecidableEq

/-- One `plot.hbar(...)` call (arguments in source order: the renderer passes
`right='start', left='end', y=value("p"+str(i)), height, color, source`). -/
structure HBarCall where
  right : String
  left : String
  y : ValueOrField
  height : Rat
  color : String
  source : ColumnDataSource PeriodGroup
deriving DecidableEq

/-- The bokeh figure, as the record of configuration applied to it.
`xaxis_formatter` holds the code string of the installed
`CustomJSTickFormatter`, if any. -/
structure Figure where
  title : String
  x_axis_label : String
  y_axis_label : String
  height : Nat
  width : Nat
  y_range : List String
  background_fill_color : String
  border_fill_color : String
  background_fill_alpha : Rat
  border_fill_alpha : Rat
  tools : List Tool
  toolbar_logo : Option String
  hover_tooltips : List (String × String)
  scatter_calls : List ScatterCall
  hbar_calls : List HBarCall
  layouts : List LabelSetObj
  xaxis_formatter : Option String
deriving DecidableEq

/-- The keyword arguments `render_timeline` forwards to `bokeh.plotting.figure`
through `setup_figure`. -/
structure FigureOptions where
  title : String
  x_axis_label : String
  y_axis_label : String
  height : Nat
  width : Nat
  y_range : List String
  background_fill_color : String
  border_fill_color : String
  background_fill_alpha : Rat
  border_fill_alpha : Rat
  tools : List Tool
deriving DecidableEq

/-- Modelled from the spec: the timeline collaborator (class
`HistoricalTimeline`, defined outside the rendering module) exposes a title
string and two accessors, one producing the event mapping and one producing
the list of period groups.  The accessors are modelled by their results. -/
structure HistoricalTimeline where
  title : String
  create_event_dict : EventDict
  create_period_list : List PeriodGroup
deriving DecidableEq

/-- The renderer object: the timeline plus the configuration fields assigned
in `__init__`. -/
structure HistoricalTimelineRenderer where
  tl : HistoricalTimeline
  bg_color : String
  bg_alpha : Rat
  period_color : String
  event_color : String
  tools : List Tool
deriving DecidableEq

/-- `__init__`: stores the timeline and styling configuration and builds the
fixed tool list `[BoxZoomTool(), ResetTool(), PanTool(dimensions="width")]`. -/
def init (tl : HistoricalTimeline) (bg_color : String) (bg_alpha : Rat)
    (period_color : String) (event_color : String) : HistoricalTimelineRenderer :=
  { tl := tl
    bg_color := bg_color
    bg_alpha := bg_alpha
    period_color := period_color
    event_color := event_color
    tools := [Tool.boxZoom, Tool.reset, Tool.pan "width"] }

/-- `get_source_from_event_dict`: converts a dictionary into a
`ColumnDataSource` (pass-through). -/
def get_source_from_event_dict {α : Type} (self : HistoricalTimelineRenderer)
    (event_dict : α) : ColumnDataSource α × HistoricalTimelineRenderer :=
  (⟨event_dict⟩, self)

/-- A fresh bokeh figure created from the forwarded keyword arguments (the
default toolbar logo is present until `setup_figure` suppresses it). -/
def bokeh_figure (opts : FigureOptions) : Figure :=
  { title := opts.title
    x_axis_label := opts.x_axis_label
    y_axis_label := opts.y_axis_label
    height := opts.height
    width := opts.width
    y_range := opts.y_range
    background_fill_color := opts.background_fill_color
    border_fill_color := opts.border_fill_color
    background_fill_alpha := opts.background_fill_alpha
    border_fill_alpha := opts.border_fill_alpha
    tools := opts.tools
    toolbar_logo := some "bokeh"
    hover_tooltips := []
    scatter_calls := []
    hbar_calls := []
    layouts := []
    xaxis_formatter := none }

/-- `setup_figure`: wraps `bokeh.plotting.figure` and sets
`fig.toolbar.logo = None`. -/
def setup_figure (self : HistoricalTimelineRenderer) (opts : FigureOptions) :
    Figure × HistoricalTimelineRenderer :=
  let fig := bokeh_figure opts
  ({ fig with toolbar_logo := none }, self)

/-- `get_y_range`: one synthetic label `"p" + str(i)` per period row, then
each event label not already present. -/
def get_y_range (self : HistoricalTimelineRenderer) (event_dict : EventDict)
    (period_list : List PeriodGroup) : List String × HistoricalTimelineRenderer :=
  let y_range := (List.range period_list.length).foldl
    (fun y_range i => y_range ++ ["p" ++ toString i]) []
  let y_range := event_dict.label.foldl
    (fun y_range label => if label ∈ y_range then y_range else y_range ++ [label]) y_range
  (y_range, self)

/-- `render_events`: one `plot.scatter` call with the renderer's event color. -/
def render_events (self : HistoricalTimelineRenderer) (plot : Figure)
    (source : ColumnDataSource EventDict) (x y : String) (size : Nat) :
    Figure × HistoricalTimelineRenderer :=
  ({ plot with scatter_calls := plot.scatter_calls ++
      [{ x := x, y := y, size := size, source := source, color := self.event_color }] },
   self)

/-- `event_tooltips`: builds `(name, "@" + name)` pairs and assigns them to
`plot.hover.tooltips`. -/
def event_tooltips (self : HistoricalTimelineRenderer) (plot : Figure)
    (tooltip_names : List String) : Figure × HistoricalTimelineRenderer :=
  let tooltips := tooltip_names.foldl (fun tooltips tool => tooltips ++ [(tool, "@" ++ tool)]) []
  ({ plot with hover_tooltips := tooltips }, self)

/-- `event_labels`: adds one `LabelSet` over the event source via
`plot.add_layout`. -/
def event_labels (self : HistoricalTimelineRenderer) (plot : Figure)
    (source : ColumnDataSource EventDict) (x y text : String) (y_offset : Int)
    (text_font_size text_color text_align : String) :
    Figure × HistoricalTimelineRenderer :=
  let labels : LabelSetObj :=
    { x := ValueOrField.field x
      y := ValueOrField.field y
      text := text
      y_offset := y_offset
      text_font_size := text_font_size
      text_color := text_color
      text_align := text_align
      source := SourceData.events source }
  ({ plot with layouts := plot.layouts ++ [labels] }, self)

/-- Loop body of `render_periods`: builds the period-group source and issues
`plot.hbar(right='start', left='end', y=value("p"+str(i)), height=height,
color=self.period_color, source=source)`. -/
def render_periods_step (height : Rat)
    (acc : Figure × HistoricalTimelineRenderer) (ipg : Nat × PeriodGroup) :
    Figure × HistoricalTimelineRenderer :=
  let sr := get_source_from_event_dict acc.2 ipg.2
  ({ acc.1 with hbar_calls := acc.1.hbar_calls ++
      [{ right := "start", left := "end", y := ValueOrField.value ("p" ++ toString ipg.1),
         height := height, color := acc.2.period_color, source := sr.1 }] },
   sr.2)

/-- `render_periods`: one `plot.hbar` call per period, iterating over the
indexed period list. -/
def render_periods (self : HistoricalTimelineRenderer) (plot : Figure)
    (period_list : List PeriodGroup) (height : Rat) :
    Figure × HistoricalTimelineRenderer :=
  period_list.enum.foldl (render_periods_step height) (plot, self)

/-- Loop body of `period_labels`: builds the period-group source and adds a
`LabelSet` at `x='mid'`, `y=value("p"+str(i))`. -/
def period_labels_step (text : String) (y_offset : Int)
    (text_font_size text_color text_align : String)
    (acc : Figure × HistoricalTimelineRenderer) (ipg : Nat × PeriodGroup) :
    Figure × HistoricalTimelineRenderer :=
  let sr := get_source_from_event_dict acc.2 ipg.2
  let labels : LabelSetObj :=
    { x := ValueOrField.field "mid"
      y := ValueOrField.value ("p" ++ toString ipg.1)
      text := text
      y_offset := y_offset
      text_font_size := text_font_size
      text_color := text_color
      text_align := text_align
      source := SourceData.periods sr.1 }
  ({ acc.1 with layouts := acc.1.layouts ++ [labels] }, sr.2)

/-- `period_labels`: one `LabelSet` per period at its midpoint column. -/
def period_labels (self : HistoricalTimelineRenderer) (plot : Figure)
    (period_list : List PeriodGroup) (text : String) (y_offset : Int)
    (text_font_size text_color text_align : String) :
    Figure × HistoricalTimelineRenderer :=
  period_list.enum.foldl
    (period_labels_step text y_offset text_font_size text_color text_align)
    (plot, self)

/-- The JavaScript code string installed when `scientific` is true. -/
def bce_ce_code : String :=
  "return tick < 0 ? Math.abs(tick) + \" BCE\" : tick +  \" CE\""

/-- The JavaScript code string installed when `scientific` is false. -/
def bc_ad_code : String :=
  "return tick < 0 ? Math.abs(tick) + \" BC\" : tick +  \" AD\""

/-- `format_xaxis`: installs a `CustomJSTickFormatter` whose code is chosen by
the `scientific` flag, and returns the plot. -/
def format_xaxis (self : HistoricalTimelineRenderer) (plot : Figure)
    (scientific : Bool) : Figure × HistoricalTimelineRenderer :=
  let code := if scientific then bce_ce_code else bc_ad_code
  ({ plot with xaxis_formatter := some code }, self)

/-- Modelled from the spec: the denotation of the two tick-formatter code
strings embedded in `format_xaxis`, for integer tick values.  Each branch
mirrors the corresponding JavaScript conditional
`tick < 0 ? Math.abs(tick) + " BC" : tick + " AD"` (resp. `" BCE"`/`" CE"`);
a code string other than the two installed by the renderer has no assigned
meaning here. -/
def js_tick_semantics (code : String) (tick : Int) : Option String :=
  if code = bc_ad_code then
    some (if tick < 0 then toString tick.natAbs ++ " BC" else toString tick ++ " AD")
  else if code = bce_ce_code then
    some (if tick < 0 then toString tick.natAbs ++ " BCE" else toString tick ++ " CE")
  else none

/-- `render_timeline`: the end-to-end render path, issuing the configuration
calls in source order. -/
def render_timeline (self : HistoricalTimelineRenderer) :
    Figure × HistoricalTimelineRenderer :=
  let event_dict := self.tl.create_event_dict
  let period_list := self.tl.create_period_list
  let sr := get_source_from_event_dict self event_dict
  let source := sr.1
  let self := sr.2
  let yr := get_y_range self event_dict period_list
  let y_range := yr.1
  let self := yr.2
  let fr := setup_figure self
    { title := self.tl.title
      x_axis_label := "year"
      y_axis_label := "category"
      height := 400
      width := 1600
      y_range := y_range
      background_fill_color := self.bg_color
      border_fill_color := self.bg_color
      background_fill_alpha := self.bg_alpha
      border_fill_alpha := self.bg_alpha
      tools := self.tools }
  let p := fr.1
  let self := fr.2
  let tr := event_tooltips self p ["title", "description"]
  let p := tr.1
  let self := tr.2
  let er := render_events self p source "dates" "label" 20
  let p := er.1
  let self := er.2
  let pr := render_periods self p period_list (3 / 10)
  let p := pr.1
  let self := pr.2
  let plr := period_labels self p period_list "title" (-8) "11px" "#555555" "center"
  let p := plr.1
  let self := plr.2
  let elr := event_labels self p source "dates" "label" "title" 0 "13px" "#555555" "center"
  let p := elr.1
  let self := elr.2
  let fxr := format_xaxis self p false
  (fxr.1, fxr.2)

/-- SPEC-SIDE definition (from the spec's words): the synthetic period-row
identifiers `"p" + str(i)` for `i` in `0 .. n-1`, in index order. -/
def synthetic_ids (n : Nat) : List String :=
  (List.range n).map (fun i => "p" ++ toString i)

/-- SPEC-SIDE definition (from the spec's words): remove duplicates from a
list of labels keeping the first occurrence of each. -/
def dedup_first : List String → List String
  | [] => []
  | l :: ls => l :: (dedup_first ls).filter (fun x => decide (x ≠ l))

/-- Numeric value of a decimal digit character (proof helper). -/
def digit_val (c : Char) : Nat := c.toNat - 48

/-- Numeric value of a decimal digit string, most significant digit first
(proof helper used to invert `Nat.toDigits`). -/
def digits_val (cs : List Char) : Nat :=
  cs.foldl (fun a c => a * 10 + digit_val c) 0

/-- The side effect performed by `output_timeline`: either `bokeh.show` with
the chart and title, or `bokeh.save` with the chart, output filename and
title. -/
inductive OutputEffect where
  | «show» (p : Figure) (title : String) : OutputEffect
  | save (p : Figure) (output : String) (title : String) : OutputEffect

/-- The chart carried by an output effect. -/
def OutputEffect.figure : OutputEffect → Figure
  | OutputEffect.«show» p _ => p
  | OutputEffect.save p _ _ => p

/-- `output_timeline`: renders the timeline, then shows it or saves it to the
output filename, passing the timeline title either way. -/
def output_timeline (self : HistoricalTimelineRenderer) (output : String)
    (show_timeline : Bool) : OutputEffect × HistoricalTimelineRenderer :=
  let pr := render_timeline self
  let p := pr.1
  let self := pr.2
  if show_timeline then (OutputEffect.«show» p self.tl.title, self)
  else (OutputEffect.save p output self.tl.title, self)

/-- Concrete fixture: an event dictionary with two events. -/
def sample_event_dict : EventDict :=
  { dates := [-100, 50]
    label := ["battle", "treaty"]
    title := ["Battle of X", "Treaty of Y"]
    description := ["first", "second"]
    extra := [] }

/-- Concrete fixture: a period group spanning -200 to -50. -/
def sample_period : PeriodGroup :=
  { start := [-200], «end» := [-50], mid := [-125], title := ["Era"], extra := [] }

/-- Concrete fixture: a timeline with one period and two events. -/
def sample_timeline : HistoricalTimeline :=
  { title := "Sample"
    create_event_dict := sample_event_dict
    create_period_list := [sample_period] }

/-- Concrete fixture: a renderer over `sample_timeline` with the default
constructor arguments. -/
def sample_renderer : HistoricalTimelineRenderer :=
  init sample_timeline "white" 1 "red" "blue"

/-- Concrete fixture: an event dictionary sharing `sample_event_dict`'s label
column but differing in every other key (including an extra key). -/
def other_event_dict : EventDict :=
  { dates := [7]
    label := ["battle", "treaty"]
    title := ["Other"]
    description := []
    extra := [("note", ["x"])] }

/-- Concrete fixture: a period group entirely different from `sample_period`. -/
def other_period : PeriodGroup :=
  { start := [0], «end» := [100], mid := [50], title := ["Alt"], extra := [] }

/-- Concrete fixture: a renderer with different styling over a one-period
timeline built from the `other` fixtures. -/
def other_renderer : HistoricalTimelineRenderer :=
  init { title := "Other"
         create_event_dict := other_event_dict
         create_period_list := [other_period] } "black" (1 / 2) "green" "yellow"

/-- Concrete fixture: an event dictionary with a duplicated label and no
periods, exercising the deduplication in `get_y_range`. -/
def duplicate_event_dict : EventDict :=
  { dates := [1, 2]
    label := ["a", "a"]
    title := ["t1", "t2"]
    description := ["d1", "d2"]
    extra := [] }

/-- Concrete fixture: a renderer whose timeline has duplicate event labels and
an empty period list. -/
def duplicate_renderer : HistoricalTimelineRenderer :=
  init { title := "Dup"
         create_event_dict := duplicate_event_dict
         create_period_list := [] } "white" 1 "red" "blue"

/-- Concrete fixture: a fresh figure with no glyphs. -/
def empty_figure : Figure :=
  bokeh_figure
    { title := ""
      x_axis_label := ""
      y_axis_label := ""
      height := 0
      width := 0
      y_range := []
      background_fill_color := ""
      border_fill_color := ""
      background_fill_alpha := 1
      border_fill_alpha := 1
      tools := [] }

/-! Helper lemmas: injectivity of the decimal printing used to form the
synthetic identifiers `"p" + str(i)`. -/

lemma toDigitsCore_append (fuel : Nat) : ∀ (n : Nat) (ds : List Char),
    Nat.toDigitsCore 10 fuel n ds = Nat.toDigitsCore 10 fuel n [] ++ ds := by
  induction fuel with
  | zero => intro n ds; simp [Nat.toDigitsCore]
  | succ fuel ih =>
    intro n ds
    simp only [Nat.toDigitsCore]
    by_cases h : n / 10 = 0
    · simp [h]
    · simp only [h, if_false]
      rw [ih (n / 10) (Nat.digitChar (n % 10) :: ds), ih (n / 10) [Nat.digitChar (n % 10)]]
      simp

lemma toDigitsCore_fuel (fuel : Nat) : ∀ (fuel2 n : Nat) (ds : List Char),
    n < fuel → n < fuel2 →
    Nat.toDigitsCore 10 fuel n ds = Nat.toDigitsCore 10 fuel2 n ds := by
  induction fuel with
  | zero => intro fuel2 n ds h1 h2; exact absurd h1 (Nat.not_lt_zero n)
  | succ fuel ih =>
    intro fuel2 n ds h1 h2
    cases fuel2 with
    | zero => exact absurd h2 (Nat.not_lt_zero n)
    | succ fuel2 =>
      simp only [Nat.toDigitsCore]
      by_cases h : n / 10 = 0
      · simp [h]
      · simp only [h, if_false]
        have hge : 10 ≤ n := by
          rcases Nat.lt_or_ge n 10 with hlt | hge
          · exact absurd ((Nat.div_eq_zero_iff (by norm_num)).mpr hlt) h
          · exact hge
        have hdiv : n / 10 < n := Nat.div_lt_self (by omega) (by norm_num)
        exact ih fuel2 (n / 10) _ (by omega) (by omega)

lemma toDigits_lt (n : Nat) (h : n < 10) : Nat.toDigits 10 n = [Nat.digitChar n] := by
  have h0 : n / 10 = 0 := (Nat.div_eq_zero_iff (by norm_num)).mpr h
  simp [Nat.toDigits, Nat.toDigitsCore, h0, Nat.mod_eq_of_lt h]

lemma toDigits_ge (n : Nat) (h : 10 ≤ n) :
    Nat.toDigits 10 n = Nat.toDigits 10 (n / 10) ++ [Nat.digitChar (n % 10)] := by
  have h0 : n / 10 ≠ 0 := by
    intro hc
    exact absurd ((Nat.div_eq_zero_iff (by norm_num)).mp hc) (by omega)
  simp only [Nat.toDigits, Nat.toDigitsCore]
  rw [if_neg h0]
  rw [toDigitsCore_append n (n / 10) [Nat.digitChar (n % 10)]]
  congr 1
  refine toDigitsCore_fuel n (n / 10 + 1) (n / 10) [] ?_ (Nat.lt_succ_self _)
  exact Nat.div_lt_self (by omega) (by norm_num)

lemma digit_val_digitChar (d : Nat) (h : d < 10) : digit_val (Nat.digitChar d) = d := by
  interval_cases d <;> rfl

lemma digits_val_concat (cs : List Char) (c : Char) :
    digits_val (cs ++ [c]) = digits_val cs * 10 + digit_val c := by
  simp [digits_val, List.foldl_append]

lemma digits_val_toDigits (n : Nat) : digits_val (Nat.toDigits 10 n) = n := by
  induction n using Nat.strong_induction_on with
  | _ n ih =>
    by_cases h : n < 10
    · rw [toDigits_lt n h]
      simp [digits_val, digit_val_digitChar n h]
    · push_neg at h
      rw [toDigits_ge n h, digits_val_concat]
      rw [ih (n / 10) (Nat.div_lt_self (by omega) (by norm_num))]
      rw [digit_val_digitChar _ (Nat.mod_lt n (by norm_num))]
      omega

lemma nat_repr_injective : Function.Injective Nat.repr := by
  intro a b h
  have hd : Nat.toDigits 10 a = Nat.toDigits 10 b := congrArg String.data h
  have := congrArg digits_val hd
  rwa [digits_val_toDigits, digits_val_toDigits] at this

lemma p_id_injective : Function.Injective (fun i : Nat => "p" ++ toString i) := by
  intro a b h
  have hd : ("p" ++ toString a).data = ("p" ++ toString b).data := congrArg String.data h
  rw [String.data_append, String.data_append] at hd
  have hdata : (toString a).data = (toString b).data := by
    simpa using hd
  exact nat_repr_injective (String.ext hdata)

lemma synthetic_ids_nodup (n : Nat) : (synthetic_ids n).Nodup :=
  (List.nodup_range n).map p_id_injective

lemma synthetic_ids_length (n : Nat) : (synthetic_ids n).length = n := by
  simp [synthetic_ids]

lemma mem_synthetic_ids (x : String) (n : Nat) :
    x ∈ synthetic_ids n ↔ ∃ i, i < n ∧ x = "p" ++ toString i := by
  simp only [synthetic_ids, List.mem_map, List.mem_range]
  constructor
  · rintro ⟨i, hi, rfl⟩; exact ⟨i, hi, rfl⟩
  · rintro ⟨i, hi, rfl⟩; exact ⟨i, hi, rfl⟩

/-! Helper lemmas about `dedup_first`. -/

lemma dedup_first_nil : dedup_first [] = [] := rfl

lemma mem_dedup_first (x : String) : ∀ (xs : List String), x ∈ dedup_first xs ↔ x ∈ xs := by
  intro xs
  induction xs with
  | nil => simp [dedup_first]
  | cons l ls ih =>
    simp only [dedup_first, List.mem_cons, List.mem_filter, decide_eq_true_eq, ih]
    by_cases hx : x = l
    · simp [hx]
    · simp [hx]

lemma nodup_dedup_first : ∀ (xs : List String), (dedup_first xs).Nodup := by
  intro xs
  induction xs with
  | nil => exact List.nodup_nil
  | cons l ls ih =>
    simp only [dedup_first]
    refine List.nodup_cons.mpr ⟨?_, ih.filter _⟩
    intro hmem
    simp [List.mem_filter] at hmem

lemma dedup_first_filter (p : String → Bool) :
    ∀ (ls : List String), dedup_first (ls.filter p) = (dedup_first ls).filter p := by
  intro ls
  induction ls with
  | nil => rfl
  | cons l ls ih =>
    rw [List.filter_cons]
    by_cases hp : p l
    · rw [if_pos hp]
      simp only [dedup_first, ih, List.filter_cons, if_pos hp]
      rw [List.filter_filter, List.filter_filter]
      refine congrArg (List.cons l) ?_
      refine congrArg (fun q => List.filter q (dedup_first ls)) ?_
      funext x
      exact Bool.and_comm _ _
    · rw [if_neg hp]
      simp only [dedup_first, ih, List.filter_cons, if_neg hp]
      rw [List.filter_filter]
      refine List.filter_congr ?_
      intro x _
      by_cases hxl : x = l
      · subst hxl
        simp [Bool.eq_false_iff.mpr hp]
      · simp [hxl]

lemma dedup_first_cons (l : String) (ls : List String) :
    dedup_first (l :: ls) = l :: dedup_first (ls.filter (fun x => decide (x ≠ l))) := by
  rw [dedup_first_filter]
  rfl

lemma dedup_first_toFinset (xs : List String) :
    (dedup_first xs).toFinset = xs.toFinset := by
  ext a
  simp [List.mem_toFinset, mem_dedup_first]

lemma dedup_first_length (xs : List String) :
    (dedup_first xs).length = xs.toFinset.card := by
  rw [← dedup_first_toFinset, List.toFinset_card_of_nodup (nodup_dedup_first xs)]

/-! Helper lemmas about the loops of the renderer. -/

lemma synthetic_foldl (n : Nat) :
    (List.range n).foldl (fun y_range i => y_range ++ ["p" ++ toString i]) []
      = synthetic_ids n := by
  have key : ∀ (l : List Nat) (acc : List String),
      l.foldl (fun y_range i => y_range ++ ["p" ++ toString i]) acc
        = acc ++ l.map (fun i => "p" ++ toString i) := by
    intro l
    induction l with
    | nil => intro acc; simp
    | cons a l ih => intro acc; simp [ih]
  simp [key, synthetic_ids]

lemma y_range_foldl : ∀ (ls : List String) (y0 : List String),
    ls.foldl (fun y_range label => if label ∈ y_range then y_range else y_range ++ [label]) y0
      = y0 ++ dedup_first (ls.filter (fun l => decide (l ∉ y0))) := by
  intro ls
  induction ls with
  | nil => intro y0; simp [dedup_first_nil]
  | cons l ls ih =>
    intro y0
    simp only [List.foldl_cons, List.filter_cons]
    by_cases h : l ∈ y0
    · have hdec : decide (l ∉ y0) = false := by simp [h]
      rw [if_pos h, hdec]
      simp only [Bool.false_eq_true, if_false]
      exact ih y0
    · have hdec : decide (l ∉ y0) = true := by simp [h]
      rw [if_neg h, hdec, if_pos rfl, dedup_first_cons, ih (y0 ++ [l])]
      have hf : ls.filter (fun x => decide (x ∉ y0 ++ [l]))
          = (ls.filter (fun x => decide (x ∉ y0))).filter (fun x => decide (x ≠ l)) := by
        rw [List.filter_filter]
        refine List.filter_congr ?_
        intro x _
        by_cases h1 : x ∈ y0 <;> by_cases h2 : x = l <;> simp [h1, h2]
      rw [hf]
      simp [List.append_assoc]

lemma get_y_range_eq (r : HistoricalTimelineRenderer) (d : EventDict)
    (pl : List PeriodGroup) :
    (get_y_range r d pl).1
      = synthetic_ids pl.length
        ++ dedup_first (d.label.filter (fun l => decide (l ∉ synthetic_ids pl.length))) := by
  simp only [get_y_range]
  rw [synthetic_foldl, y_range_foldl]

lemma render_periods_step_eq (h : Rat) (p : Figure) (s : HistoricalTimelineRenderer)
    (ipg : Nat × PeriodGroup) :
    render_periods_step h (p, s) ipg
      = ({ p with hbar_calls := p.hbar_calls ++
            [{ right := "start", left := "end",
               y := ValueOrField.value ("p" ++ toString ipg.1),
               height := h, color := s.period_color, source := ⟨ipg.2⟩ }] }, s) := rfl

lemma periods_foldl_snd (h : Rat) :
    ∀ (l : List (Nat × PeriodGroup)) (p : Figure) (s : HistoricalTimelineRenderer),
      (l.foldl (render_periods_step h) (p, s)).2 = s := by
  intro l
  induction l with
  | nil => intro p s; rfl
  | cons a l ih =>
    intro p s
    rw [List.foldl_cons, render_periods_step_eq]
    exact ih _ s

lemma periods_foldl_y_range (h : Rat) :
    ∀ (l : List (Nat × PeriodGroup)) (p : Figure) (s : HistoricalTimelineRenderer),
      (l.foldl (render_periods_step h) (p, s)).1.y_range = p.y_range := by
  intro l
  induction l with
  | nil => intro p s; rfl
  | cons a l ih =>
    intro p s
    rw [List.foldl_cons, render_periods_step_eq]
    exact ih _ s

lemma periods_foldl_hbar (h : Rat) :
    ∀ (l : List (Nat × PeriodGroup)) (p : Figure) (s : HistoricalTimelineRenderer),
      (l.foldl (render_periods_step h) (p, s)).1.hbar_calls
        = p.hbar_calls ++ l.map (fun ipg =>
            { right := "start", left := "end",
              y := ValueOrField.value ("p" ++ toString ipg.1),
              height := h, color := s.period_color, source := ⟨ipg.2⟩ }) := by
  intro l
  induction l with
  | nil => intro p s; simp
  | cons a l ih =>
    intro p s
    rw [List.foldl_cons, render_periods_step_eq, ih, List.map_cons]
    simp

lemma period_labels_step_eq (text : String) (y_offset : Int)
    (text_font_size text_color text_align : String) (p : Figure)
    (s : HistoricalTimelineRenderer) (ipg : Nat × PeriodGroup) :
    period_labels_step text y_offset text_font_size text_color text_align (p, s) ipg
      = ({ p with layouts := p.layouts ++
            [{ x := ValueOrField.field "mid",
               y := ValueOrField.value ("p" ++ toString ipg.1),
               text := text, y_offset := y_offset, text_font_size := text_font_size,
               text_color := text_color, text_align := text_align,
               source := SourceData.periods ⟨ipg.2⟩ }] }, s) := rfl

lemma labels_foldl_snd (text : String) (y_offset : Int)
    (text_font_size text_color text_align : String) :
    ∀ (l : List (Nat × PeriodGroup)) (p : Figure) (s : HistoricalTimelineRenderer),
      (l.foldl (period_labels_step text y_offset text_font_size text_color text_align)
        (p, s)).2 = s := by
  intro l
  induction l with
  | nil => intro p s; rfl
  | cons a l ih =>
    intro p s
    rw [List.foldl_cons, period_labels_step_eq]
    exact ih _ s

lemma labels_foldl_y_range (text : String) (y_offset : Int)
    (text_font_size text_color text_align : String) :
    ∀ (l : List (Nat × PeriodGroup)) (p : Figure) (s : HistoricalTimelineRenderer),
      (l.foldl (period_labels_step text y_offset text_font_size text_color text_align)
        (p, s)).1.y_range = p.y_range := by
  intro l
  induction l with
  | nil => intro p s; rfl
  | cons a l ih =>
    intro p s
    rw [List.foldl_cons, period_labels_step_eq]
    exact ih _ s

lemma labels_foldl_formatter (text : String) (y_offset : Int)
    (text_font_size text_color text_align : String) :
    ∀ (l : List (Nat × PeriodGroup)) (p : Figure) (s : HistoricalTimelineRenderer),
      (l.foldl (period_labels_step text y_offset text_font_size text_color text_align)
        (p, s)).1.xaxis_formatter = p.xaxis_formatter := by
  intro l
  induction l with
  | nil => intro p s; rfl
  | cons a l ih =>
    intro p s
    rw [List.foldl_cons, period_labels_step_eq]
    exact ih _ s

lemma render_timeline_y_range (r : HistoricalTimelineRenderer) :
    (render_timeline r).1.y_range
      = (get_y_range r r.tl.create_event_dict r.tl.create_period_list).1 := by
  simp only [render_timeline, format_xaxis, event_labels, period_labels, render_periods,
    render_events, event_tooltips, setup_figure, bokeh_figure, get_source_from_event_dict,
    labels_foldl_y_range, periods_foldl_y_range]

lemma render_timeline_snd (r : HistoricalTimelineRenderer) :
    (render_timeline r).2 = r := by
  simp only [render_timeline, format_xaxis, event_labels, period_labels, render_periods,
    render_events, event_tooltips, setup_figure, bokeh_figure, get_source_from_event_dict,
    get_y_range, labels_foldl_snd, periods_foldl_snd]

/-- C1: for every event dictionary and period list, `get_y_range` returns
exactly one synthetic row identifier `"p" + str(i)` per period in index order
`0 .. len(period_list)-1`, followed by each event label not already present in
the list so far in first-occurrence order, with no duplicates in the result. -/
theorem get_y_range_spec (r : HistoricalTimelineRenderer) (event_dict : EventDict)
    (period_list : List PeriodGroup) :
    (get_y_range r event_dict period_list).1
        = synthetic_ids period_list.length
          ++ dedup_first (event_dict.label.filter
              (fun l => decide (l ∉ synthetic_ids period_list.length)))
      ∧ (get_y_range r event_dict period_list).1.Nodup := by
  refine ⟨get_y_range_eq r event_dict period_list, ?_⟩
  rw [get_y_range_eq, List.nodup_append]
  refine ⟨synthetic_ids_nodup _, nodup_dedup_first _, ?_⟩
  intro a ha hb
  rw [mem_dedup_first, List.mem_filter] at hb
  simp only [decide_eq_true_eq] at hb
  exact hb.2 ha

/-- C2 counterexample: `render_periods` does not bind the bar's left edge to
the `start` column and its right edge to the `end` column: for a concrete
one-period list the single drawn bar violates that binding. -/
theorem render_periods_left_right_counterexample :
    ¬ (∀ c ∈ (render_periods sample_renderer empty_figure [sample_period] (3 / 10)).1.hbar_calls,
        c.left = "start" ∧ c.right = "end") := by
  decide

/-- C2 (amended): `render_periods` draws one horizontal bar per period at that
period's synthetic row `"p" + str(i)`, in index order, with the bar's left
edge bound to the period's `end` column and its right edge bound to its
`start` column (so the bar still spans the start-to-end interval), with the
renderer's fixed period color and the given height. -/
theorem render_periods_calls (r : HistoricalTimelineRenderer) (plot : Figure)
    (period_list : List PeriodGroup) (height : Rat) :
    (render_periods r plot period_list height).1.hbar_calls
      = plot.hbar_calls ++ period_list.enum.map (fun ipg =>
          { right := "start", left := "end",
            y := ValueOrField.value ("p" ++ toString ipg.1),
            height := height, color := r.period_color, source := ⟨ipg.2⟩ }) := by
  simp only [render_periods]
  rw [periods_foldl_hbar]

/-- C3: the tick formatter installed by `format_xaxis` maps a negative tick
`t` to `str(abs(t)) + " BC"` and a non-negative tick to `str(t) + " AD"` when
the scientific flag is false, and analogously to `" BCE"`/`" CE"` when it is
true. -/
theorem format_xaxis_tick_mapping (r : HistoricalTimelineRenderer) (plot : Figure)
    (scientific : Bool) (t : Int) :
    ∃ code, (format_xaxis r plot scientific).1.xaxis_formatter = some code
      ∧ js_tick_semantics code t
          = some ((if t < 0 then toString t.natAbs else toString t)
              ++ (if scientific then (if t < 0 then " BCE" else " CE")
                  else (if t < 0 then " BC" else " AD"))) := by
  cases scientific with
  | false =>
    refine ⟨bc_ad_code, rfl, ?_⟩
    simp only [js_tick_semantics, if_pos rfl]
    by_cases ht : t < 0 <;> simp [ht]
  | true =>
    refine ⟨bce_ce_code, rfl, ?_⟩
    have hne : bce_ce_code ≠ bc_ad_code := by decide
    simp only [js_tick_semantics, if_neg hne, if_pos rfl]
    by_cases ht : t < 0 <;> simp [ht]

/-- C4: with at least one period and at least one event, the rendered chart's
y-range has length equal to the number of periods plus the number of distinct
event labels that are not equal to any synthetic identifier `"p" + str(i)`;
an event label equal to such an identifier contributes no extra row. -/
theorem render_timeline_y_range_length (r : HistoricalTimelineRenderer)
    (h1 : r.tl.create_period_list ≠ []) (h2 : r.tl.create_event_dict.label ≠ []) :
    (render_timeline r).1.y_range.length
      = r.tl.create_period_list.length
        + (r.tl.create_event_dict.label.filter
            (fun l => decide (l ∉ synthetic_ids r.tl.create_period_list.length))).toFinset.card := by
  rw [render_timeline_y_range, get_y_range_eq, List.length_append, synthetic_ids_length,
    dedup_first_length]

/-- C4 witness: the hypotheses hold and the length equation is obtained from
the theorem at the one-period, two-event fixture. -/
theorem render_timeline_y_range_length_witness :
    sample_renderer.tl.create_period_list ≠ []
      ∧ sample_renderer.tl.create_event_dict.label ≠ []
      ∧ (render_timeline sample_renderer).1.y_range.length
          = sample_renderer.tl.create_period_list.length
            + (sample_renderer.tl.create_event_dict.label.filter
                (fun l => decide
                  (l ∉ synthetic_ids sample_renderer.tl.create_period_list.length))).toFinset.card :=
  ⟨by decide, by decide,
    render_timeline_y_range_length sample_renderer (by decide) (by decide)⟩

/-- C5 counterexample: with an empty period list and the non-empty event
dictionary whose label column is `["a", "a"]`, the rendered chart's y-range is
`["a"]`, which differs from the event label list itself. -/
theorem render_timeline_empty_periods_counterexample :
    duplicate_renderer.tl.create_period_list = []
      ∧ duplicate_renderer.tl.create_event_dict.label ≠ []
      ∧ (render_timeline duplicate_renderer).1.y_range
          ≠ duplicate_renderer.tl.create_event_dict.label :=
  ⟨rfl, by decide, by decide⟩

/-- C5 (amended): for every renderer whose timeline yields an empty period
list and a non-empty event dictionary, the end-to-end render path produces a
chart whose y-range equals the event labels with duplicates removed (first
occurrences kept), with no synthetic period rows prepended. -/
theorem render_timeline_empty_periods (r : HistoricalTimelineRenderer)
    (h1 : r.tl.create_period_list = []) (h2 : r.tl.create_event_dict.label ≠ []) :
    (render_timeline r).1.y_range = dedup_first r.tl.create_event_dict.label := by
  rw [render_timeline_y_range, get_y_range_eq, h1]
  have hfilter : r.tl.create_event_dict.label.filter
      (fun l => decide (l ∉ synthetic_ids ([] : List PeriodGroup).length))
        = r.tl.create_event_dict.label := by
    refine List.filter_eq_self.mpr ?_
    intro a _
    simp [synthetic_ids]
  rw [hfilter]
  rfl

/-- C5 witness: the amended statement instantiated at the duplicate-label,
empty-period fixture. -/
theorem render_timeline_empty_periods_witness :
    duplicate_renderer.tl.create_period_list = []
      ∧ duplicate_renderer.tl.create_event_dict.label ≠ []
      ∧ (render_timeline duplicate_renderer).1.y_range
          = dedup_first duplicate_renderer.tl.create_event_dict.label :=
  ⟨rfl, by decide, render_timeline_empty_periods duplicate_renderer rfl (by decide)⟩

/-- C6: `event_tooltips` sets the plot's hover tooltips to exactly one
`(name, "@" + name)` pair per input name, in input order. -/
theorem event_tooltips_spec (r : HistoricalTimelineRenderer) (plot : Figure)
    (tooltip_names : List String) :
    (event_tooltips r plot tooltip_names).1.hover_tooltips
      = tooltip_names.map (fun name => (name, "@" ++ name)) := by
  have key : ∀ (l : List String) (acc : List (String × String)),
      l.foldl (fun tooltips tool => tooltips ++ [(tool, "@" ++ tool)]) acc
        = acc ++ l.map (fun name => (name, "@" ++ name)) := by
    intro l
    induction l with
    | nil => intro acc; simp
    | cons a l ih => intro acc; simp [ih]
  simp [event_tooltips, key]

/-- C7: `output_timeline` first renders the full chart, then performs exactly
one effect: showing the chart when `show_timeline` is true, and saving it to
the output filename otherwise, passing the timeline's title in both cases. -/
theorem output_timeline_effect (r : HistoricalTimelineRenderer) (output : String)
    (show_timeline : Bool) :
    (output_timeline r output show_timeline).1
      = if show_timeline then OutputEffect.«show» (render_timeline r).1 r.tl.title
        else OutputEffect.save (render_timeline r).1 output r.tl.title := by
  cases show_timeline with
  | false => simp [output_timeline, render_timeline_snd]
  | true => simp [output_timeline, render_timeline_snd]

/-- C8: the renderer's configuration fields are assigned only by the
constructor: every operation of the class returns the renderer state
unchanged. -/
theorem renderer_config_immutable (r : HistoricalTimelineRenderer) (d : EventDict)
    (pg : PeriodGroup) (opts : FigureOptions) (plot : Figure)
    (source : ColumnDataSource EventDict) (x y text : String) (size : Nat)
    (tooltip_names : List String) (height : Rat) (period_list : List PeriodGroup)
    (y_offset : Int) (text_font_size text_color text_align : String)
    (scientific : Bool) (output : String) (show_timeline : Bool) :
    (get_source_from_event_dict r d).2 = r
      ∧ (get_source_from_event_dict r pg).2 = r
      ∧ (setup_figure r opts).2 = r
      ∧ (get_y_range r d period_list).2 = r
      ∧ (render_events r plot source x y size).2 = r
      ∧ (render_periods r plot period_list height).2 = r
      ∧ (period_labels r plot period_list text y_offset text_font_size
          text_color text_align).2 = r
      ∧ (event_labels r plot source x y text y_offset text_font_size
          text_color text_align).2 = r
      ∧ (event_tooltips r plot tooltip_names).2 = r
      ∧ (format_xaxis r plot scientific).2 = r
      ∧ (render_timeline r).2 = r
      ∧ (output_timeline r output show_timeline).2 = r := by
  refine ⟨rfl, rfl, rfl, rfl, rfl, ?_, ?_, rfl, rfl, rfl, render_timeline_snd r, ?_⟩
  · exact periods_foldl_snd height period_list.enum plot r
  · exact labels_foldl_snd text y_offset text_font_size text_color text_align
      period_list.enum plot r
  · cases show_timeline with
    | false => simp [output_timeline, render_timeline_snd]
    | true => simp [output_timeline, render_timeline_snd]

/-- C9: `render_timeline` always installs the x-axis formatter with the
scientific flag false, so the rendered chart's formatter carries the BC/AD
code both from `render_timeline` and through `output_timeline`; the BCE/CE
code is a different string and is never installed on this path. -/
theorem render_timeline_bc_ad_only (r : HistoricalTimelineRenderer) (output : String)
    (show_timeline : Bool) :
    (render_timeline r).1.xaxis_formatter = some bc_ad_code
      ∧ ((output_timeline r output show_timeline).1.figure).xaxis_formatter
          = some bc_ad_code
      ∧ bc_ad_code ≠ bce_ce_code := by
  have h1 : (render_timeline r).1.xaxis_formatter = some bc_ad_code := rfl
  refine ⟨h1, ?_, by decide⟩
  cases show_timeline with
  | false => simpa [output_timeline, OutputEffect.figure] using h1
  | true => simpa [output_timeline, OutputEffect.figure] using h1

/-- C10: the result of `get_y_range` depends only on the event dictionary's
label column and the period list's length: any two calls agreeing on those
return equal label lists, whatever the renderers, the other event-dictionary
columns and the period contents are. -/
theorem get_y_range_noninterference (r1 r2 : HistoricalTimelineRenderer)
    (d1 d2 : EventDict) (pl1 pl2 : List PeriodGroup)
    (hl : d1.label = d2.label) (hn : pl1.length = pl2.length) :
    (get_y_range r1 d1 pl1).1 = (get_y_range r2 d2 pl2).1 := by
  simp only [get_y_range, hl, hn]

/-- C10 witness: the theorem applied to two calls whose label columns and
period-list lengths coincide while every other input differs. -/
theorem get_y_range_noninterference_witness :
    sample_event_dict.label = other_event_dict.label
      ∧ ([sample_period] : List PeriodGroup).length = ([other_period] : List PeriodGroup).length
      ∧ (get_y_range sample_renderer sample_event_dict [sample_period]).1
          = (get_y_range other_renderer other_event_dict [other_period]).1 :=
  ⟨rfl, rfl,
    get_y_range_noninterference sample_renderer other_renderer sample_event_dict
      other_event_dict [sample_period] [other_period] rfl rfl⟩

end HistoricalTimelines
